import Mathlib

/-!
Shallow embedding of the social-caption-generator action layer
(`src/unnamed/part_000`, schema in `src/db/tables.ts`).

Modelling conventions:
* The three Astro DB tables are lists of rows inside a `Store`.
* `column.date` timestamps are modelled as `Nat` ticks; `new Date()` is the
  explicit `now` parameter; `crypto.randomUUID()` is the explicit `freshId`
  parameter.
* Nullable text columns (`optional: true`) are `Option String`; `none` is SQL
  NULL / JS undefined.
* Drizzle `eq` on a nullable column compiles to SQL `=`, which under SQL
  three-valued logic yields UNKNOWN whenever either side is NULL; a WHERE
  clause keeps only rows evaluating to TRUE.  `sqlEq`/`sqlOr`/`sqlPass`
  embed exactly that (Kleene logic with `Option Bool`, `none` = UNKNOWN).
* A thrown `ActionError` is an `Except.error` carrying the error code; zod
  shape/refinement failure before the handler runs is `Err.invalidInput`.
* Each action is split, mirroring `defineAction`, into a `...Handler`
  (the `handler:` closure, run after validation) and a wrapper with the
  source's exported name that first runs the zod validation.  Every
  handler returns the resulting store together with the result, because a
  thrown error does not roll back a store write that already happened.
-/

namespace SocialCaption

/-- Error codes of `ActionError` as raised in the source (`UNAUTHORIZED`,
`NOT_FOUND`, `FORBIDDEN`) plus the code Astro actions give a zod input
validation failure. -/
inductive Err where
  | unauthorized
  | notFound
  | forbidden
  | invalidInput
deriving DecidableEq

/-- The authenticated user record exposed on `context.locals.user`; only its
`id` is read by this module. -/
structure User where
  id : String
deriving DecidableEq

/-- Row of `CaptionSessions` (src/db/tables.ts): `userId` is a non-nullable
text column, `description`/`coreMessage`/`targetAudience` are optional. -/
structure CaptionSession where
  id : String
  userId : String
  name : String
  description : Option String
  coreMessage : Option String
  targetAudience : Option String
  createdAt : Nat
  updatedAt : Nat
deriving DecidableEq

/-- Row of `Captions` (src/db/tables.ts). -/
structure Caption where
  id : String
  sessionId : String
  platform : Option String
  tone : Option String
  variantLabel : Option String
  captionText : String
  hashtags : Option String
  createdAt : Nat
deriving DecidableEq

/-- Row of `CaptionTemplates` (src/db/tables.ts): `userId` is nullable
(`null -> global/system template`). -/
structure CaptionTemplate where
  id : String
  userId : Option String
  name : String
  platform : Option String
  tone : Option String
  body : String
  isSystem : Bool
  createdAt : Nat
deriving DecidableEq

/-- The database state: the three tables. -/
structure Store where
  sessions : List CaptionSession
  captions : List Caption
  templates : List CaptionTemplate
deriving DecidableEq

/-- The ambient request context (`context.locals`): an optional
authenticated user. -/
structure Ctx where
  user : Option User
deriving DecidableEq

/-- SQL `=` on a nullable text column under three-valued logic:
comparison with NULL is UNKNOWN (`none`), otherwise a Boolean.  This is what
drizzle `eq(col, v)` compiles to, including `eq(col, null)`. -/
def sqlEq (a b : Option String) : Option Bool :=
  match a, b with
  | some x, some y => some (x == y)
  | _, _ => none

/-- SQL `OR` (Kleene three-valued). -/
def sqlOr (a b : Option Bool) : Option Bool :=
  match a, b with
  | some true, _ => some true
  | _, some true => some true
  | some false, some false => some false
  | _, _ => none

/-- A WHERE clause keeps a row only when its condition is TRUE (UNKNOWN is
filtered out, like FALSE). -/
def sqlPass (v : Option Bool) : Bool := v == some true

/-- JS truthiness of an optional string: `undefined`/`null` and the empty
string are falsy, every other string is truthy. -/
def truthy (s : Option String) : Bool :=
  match s with
  | none => false
  | some v => !(v == "")

/-- `requireUser` (lines 13-25): returns `context.locals.user`, or throws
`UNAUTHORIZED` if absent. -/
def requireUser (ctx : Ctx) : Except Err User :=
  match ctx.user with
  | none => .error .unauthorized
  | some u => .ok u

/-- `getOwnedSession` (lines 27-41): selects sessions whose `id` equals
`sessionId` AND whose `userId` equals `userId`; destructures the first row;
throws `NOT_FOUND` when there is none. -/
def getOwnedSession (st : Store) (sessionId userId : String) :
    Except Err CaptionSession :=
  match st.sessions.find? (fun s => s.id == sessionId && s.userId == userId) with
  | none => .error .notFound
  | some s => .ok s

/-- `ensureTemplateAccessible` (lines 43-64): selects the template by `id`
alone; throws `NOT_FOUND` when none; then
`if (template.userId && template.userId !== userId)` throws `FORBIDDEN` —
note the JS truthiness test on `template.userId`, under which a NULL or
empty-string owner skips the check; otherwise returns the template. -/
def ensureTemplateAccessible (st : Store) (templateId userId : String) :
    Except Err CaptionTemplate :=
  match st.templates.find? (fun t => t.id == templateId) with
  | none => .error .notFound
  | some t =>
    if truthy t.userId && !(t.userId == some userId) then .error .forbidden
    else .ok t

/-- Parsed input of `createCaptionSession` (zod object, lines 68-73). -/
structure CreateSessionInput where
  name : String
  description : Option String
  coreMessage : Option String
  targetAudience : Option String
deriving DecidableEq

/-- zod validation of `createCaptionSession`: `name: z.string().min(1)`. -/
def validCreateSessionInput (i : CreateSessionInput) : Bool :=
  1 ≤ i.name.length

/-- Handler of `createCaptionSession` (lines 74-93): requireUser, then
insert a fresh row with `createdAt = updatedAt = now` and return it. -/
def createCaptionSessionHandler (ctx : Ctx) (i : CreateSessionInput)
    (st : Store) (now : Nat) (freshId : String) :
    Store × Except Err CaptionSession :=
  match requireUser ctx with
  | .error e => (st, .error e)
  | .ok user =>
    let row : CaptionSession :=
      { id := freshId, userId := user.id, name := i.name,
        description := i.description, coreMessage := i.coreMessage,
        targetAudience := i.targetAudience, createdAt := now, updatedAt := now }
    ({ st with sessions := st.sessions ++ [row] }, .ok row)

/-- `createCaptionSession` action: zod validation, then the handler. -/
def createCaptionSession (ctx : Ctx) (i : CreateSessionInput) (st : Store)
    (now : Nat) (freshId : String) : Store × Except Err CaptionSession :=
  if validCreateSessionInput i then createCaptionSessionHandler ctx i st now freshId
  else (st, .error .invalidInput)

/-- Parsed input of `updateCaptionSession` (zod object, lines 97-104);
`none` means the field was not supplied. -/
structure UpdateSessionInput where
  id : String
  name : Option String
  description : Option String
  coreMessage : Option String
  targetAudience : Option String
deriving DecidableEq

/-- zod validation of `updateCaptionSession`: `id` min length 1, `name` min
length 1 when present, and the `.refine` requiring at least one updatable
field to be present (lines 105-112). -/
def validUpdateSessionInput (i : UpdateSessionInput) : Bool :=
  1 ≤ i.id.length
    && (match i.name with | some n => 1 ≤ n.length | none => true)
    && (i.name.isSome || i.description.isSome || i.coreMessage.isSome
          || i.targetAudience.isSome)

/-- The `.set({...})` object of `updateCaptionSession` (lines 119-127):
spread each supplied field, always refresh `updatedAt`. -/
def applySessionSet (i : UpdateSessionInput) (now : Nat)
    (s : CaptionSession) : CaptionSession :=
  { s with
    name := match i.name with | some v => v | none => s.name
    description := match i.description with | some v => some v | none => s.description
    coreMessage := match i.coreMessage with | some v => some v | none => s.coreMessage
    targetAudience :=
      match i.targetAudience with | some v => some v | none => s.targetAudience
    updatedAt := now }

/-- Handler of `updateCaptionSession` (lines 113-132): requireUser, guard
the session via `getOwnedSession`, then UPDATE every row whose `id` matches
(the WHERE is on `id` alone), `.returning()` and destructure the first
updated row (possibly absent, hence `Option`). -/
def updateCaptionSessionHandler (ctx : Ctx) (i : UpdateSessionInput)
    (st : Store) (now : Nat) : Store × Except Err (Option CaptionSession) :=
  match requireUser ctx with
  | .error e => (st, .error e)
  | .ok user =>
    match getOwnedSession st i.id user.id with
    | .error e => (st, .error e)
    | .ok _ =>
      let sessions :=
        st.sessions.map (fun s => if s.id == i.id then applySessionSet i now s else s)
      (⟨sessions, st.captions, st.templates⟩,
        .ok (sessions.find? (fun s => s.id == i.id)))

/-- `updateCaptionSession` action: zod validation, then the handler. -/
def updateCaptionSession (ctx : Ctx) (i : UpdateSessionInput) (st : Store)
    (now : Nat) : Store × Except Err (Option CaptionSession) :=
  if validUpdateSessionInput i then updateCaptionSessionHandler ctx i st now
  else (st, .error .invalidInput)

/-- Handler of `listCaptionSessions` (lines 135-147): requireUser, select
the sessions whose `userId` equals the acting user's id, return them with
their count. -/
def listCaptionSessionsHandler (ctx : Ctx) (st : Store) :
    Store × Except Err (List CaptionSession × Nat) :=
  match requireUser ctx with
  | .error e => (st, .error e)
  | .ok user =>
    let items := st.sessions.filter (fun s => s.userId == user.id)
    (st, .ok (items, items.length))

/-- `listCaptionSessions` action (input `z.object({}).optional()` — nothing
to validate). -/
def listCaptionSessions (ctx : Ctx) (st : Store) :
    Store × Except Err (List CaptionSession × Nat) :=
  listCaptionSessionsHandler ctx st

/-- Parsed input of `createCaption` (zod object, lines 150-158). -/
structure CreateCaptionInput where
  sessionId : String
  platform : Option String
  tone : Option String
  variantLabel : Option String
  captionText : String
  hashtags : Option String
  templateId : Option String
deriving DecidableEq

/-- zod validation of `createCaption`: `sessionId` and `captionText` min
length 1; `templateId` is plain `z.string().optional()` — the empty string
passes. -/
def validCreateCaptionInput (i : CreateCaptionInput) : Bool :=
  1 ≤ i.sessionId.length && 1 ≤ i.captionText.length

/-- Handler of `createCaption` (lines 159-182): requireUser, guard the
session, then `if (input.templateId)` — JS truthiness, so an absent OR
empty-string templateId skips the gate — check the template, then insert
the caption row built purely from the input. -/
def createCaptionHandler (ctx : Ctx) (i : CreateCaptionInput) (st : Store)
    (now : Nat) (freshId : String) : Store × Except Err Caption :=
  match requireUser ctx with
  | .error e => (st, .error e)
  | .ok user =>
    match getOwnedSession st i.sessionId user.id with
    | .error e => (st, .error e)
    | .ok _ =>
      let gate : Except Err Unit :=
        if truthy i.templateId then
          match ensureTemplateAccessible st (i.templateId.getD "") user.id with
          | .error e => .error e
          | .ok _ => .ok ()
        else .ok ()
      match gate with
      | .error e => (st, .error e)
      | .ok _ =>
        let row : Caption :=
          { id := freshId, sessionId := i.sessionId, platform := i.platform,
            tone := i.tone, variantLabel := i.variantLabel,
            captionText := i.captionText, hashtags := i.hashtags,
            createdAt := now }
        (⟨st.sessions, st.captions ++ [row], st.templates⟩, .ok row)

/-- `createCaption` action: zod validation, then the handler. -/
def createCaption (ctx : Ctx) (i : CreateCaptionInput) (st : Store)
    (now : Nat) (freshId : String) : Store × Except Err Caption :=
  if validCreateCaptionInput i then createCaptionHandler ctx i st now freshId
  else (st, .error .invalidInput)

/-- Parsed input of `updateCaption` (zod object, lines 187-195). -/
structure UpdateCaptionInput where
  id : String
  sessionId : String
  platform : Option String
  tone : Option String
  variantLabel : Option String
  captionText : Option String
  hashtags : Option String
deriving DecidableEq

/-- zod validation of `updateCaption`: `id`/`sessionId` min length 1 plus
the `.refine` requiring at least one updatable field (lines 196-204). -/
def validUpdateCaptionInput (i : UpdateCaptionInput) : Bool :=
  1 ≤ i.id.length && 1 ≤ i.sessionId.length
    && (i.platform.isSome || i.tone.isSome || i.variantLabel.isSome
          || i.captionText.isSome || i.hashtags.isSome)

/-- The `.set({...})` object of `updateCaption` (lines 220-226): spread each
supplied field; `createdAt` and keys are untouched. -/
def applyCaptionSet (i : UpdateCaptionInput) (c : Caption) : Caption :=
  { c with
    platform := match i.platform with | some v => some v | none => c.platform
    tone := match i.tone with | some v => some v | none => c.tone
    variantLabel :=
      match i.variantLabel with | some v => some v | none => c.variantLabel
    captionText := match i.captionText with | some v => v | none => c.captionText
    hashtags := match i.hashtags with | some v => some v | none => c.hashtags }

/-- Handler of `updateCaption` (lines 205-231): requireUser, guard the
session, look up the caption by `id` AND `sessionId` (NOT_FOUND when
absent), then UPDATE every caption whose `id` matches (the UPDATE's WHERE
is on `id` alone, line 227) and return the first updated row. -/
def updateCaptionHandler (ctx : Ctx) (i : UpdateCaptionInput) (st : Store) :
    Store × Except Err (Option Caption) :=
  match requireUser ctx with
  | .error e => (st, .error e)
  | .ok user =>
    match getOwnedSession st i.sessionId user.id with
    | .error e => (st, .error e)
    | .ok _ =>
      match st.captions.find? (fun c => c.id == i.id && c.sessionId == i.sessionId) with
      | none => (st, .error .notFound)
      | some _ =>
        let captions :=
          st.captions.map (fun c => if c.id == i.id then applyCaptionSet i c else c)
        (⟨st.sessions, captions, st.templates⟩,
          .ok (captions.find? (fun c => c.id == i.id)))

/-- `updateCaption` action: zod validation, then the handler. -/
def updateCaption (ctx : Ctx) (i : UpdateCaptionInput) (st : Store) :
    Store × Except Err (Option Caption) :=
  if validUpdateCaptionInput i then updateCaptionHandler ctx i st
  else (st, .error .invalidInput)

/-- Parsed input of `deleteCaption` (zod object, lines 235-238). -/
structure DeleteCaptionInput where
  id : String
  sessionId : String
deriving DecidableEq

/-- zod validation of `deleteCaption`: both ids min length 1. -/
def validDeleteCaptionInput (i : DeleteCaptionInput) : Bool :=
  1 ≤ i.id.length && 1 ≤ i.sessionId.length

/-- Handler of `deleteCaption` (lines 239-252): requireUser, guard the
session, DELETE captions matching `id` AND `sessionId` (the delete executes
before the rows-affected check), then throw NOT_FOUND when zero rows were
affected. -/
def deleteCaptionHandler (ctx : Ctx) (i : DeleteCaptionInput) (st : Store) :
    Store × Except Err Unit :=
  match requireUser ctx with
  | .error e => (st, .error e)
  | .ok user =>
    match getOwnedSession st i.sessionId user.id with
    | .error e => (st, .error e)
    | .ok _ =>
      let hit := fun (c : Caption) => c.id == i.id && c.sessionId == i.sessionId
      let remaining := st.captions.filter (fun c => !(hit c))
      let affected := st.captions.countP hit
      if affected == 0 then
        (⟨st.sessions, remaining, st.templates⟩, .error .notFound)
      else
        (⟨st.sessions, remaining, st.templates⟩, .ok ())

/-- `deleteCaption` action: zod validation, then the handler. -/
def deleteCaption (ctx : Ctx) (i : DeleteCaptionInput) (st : Store) :
    Store × Except Err Unit :=
  if validDeleteCaptionInput i then deleteCaptionHandler ctx i st
  else (st, .error .invalidInput)

/-- Parsed input of `listCaptions` (zod object, lines 256-258). -/
structure ListCaptionsInput where
  sessionId : String
deriving DecidableEq

/-- zod validation of `listCaptions`: `sessionId` min length 1. -/
def validListCaptionsInput (i : ListCaptionsInput) : Bool :=
  1 ≤ i.sessionId.length

/-- Handler of `listCaptions` (lines 259-269): requireUser, guard the
session, return all captions of that session with their count. -/
def listCaptionsHandler (ctx : Ctx) (i : ListCaptionsInput) (st : Store) :
    Store × Except Err (List Caption × Nat) :=
  match requireUser ctx with
  | .error e => (st, .error e)
  | .ok user =>
    match getOwnedSession st i.sessionId user.id with
    | .error e => (st, .error e)
    | .ok _ =>
      let items := st.captions.filter (fun c => c.sessionId == i.sessionId)
      (st, .ok (items, items.length))

/-- `listCaptions` action: zod validation, then the handler. -/
def listCaptions (ctx : Ctx) (i : ListCaptionsInput) (st : Store) :
    Store × Except Err (List Caption × Nat) :=
  if validListCaptionsInput i then listCaptionsHandler ctx i st
  else (st, .error .invalidInput)

/-- Parsed input of `createTemplate` (zod object, lines 273-278).  The zod
object has no `isSystem` key at all: an `isSystem` value in a request is
stripped by parsing and can never reach the handler. -/
structure CreateTemplateInput where
  name : String
  platform : Option String
  tone : Option String
  body : String
deriving DecidableEq

/-- zod validation of `createTemplate`: `name` and `body` min length 1. -/
def validCreateTemplateInput (i : CreateTemplateInput) : Bool :=
  1 ≤ i.name.length && 1 ≤ i.body.length

/-- Handler of `createTemplate` (lines 279-297): requireUser, insert a row
attributed to the acting user with the literal `isSystem: false`. -/
def createTemplateHandler (ctx : Ctx) (i : CreateTemplateInput) (st : Store)
    (now : Nat) (freshId : String) : Store × Except Err CaptionTemplate :=
  match requireUser ctx with
  | .error e => (st, .error e)
  | .ok user =>
    let row : CaptionTemplate :=
      { id := freshId, userId := some user.id, name := i.name,
        platform := i.platform, tone := i.tone, body := i.body,
        isSystem := false, createdAt := now }
    (⟨st.sessions, st.captions, st.templates ++ [row]⟩, .ok row)

/-- `createTemplate` action: zod validation, then the handler. -/
def createTemplate (ctx : Ctx) (i : CreateTemplateInput) (st : Store)
    (now : Nat) (freshId : String) : Store × Except Err CaptionTemplate :=
  if validCreateTemplateInput i then createTemplateHandler ctx i st now freshId
  else (st, .error .invalidInput)

/-- Handler of `listTemplates` (lines 302-311): requireUser, then select
templates WHERE `userId = user.id OR userId = NULL` — the second disjunct is
drizzle `eq(CaptionTemplates.userId, null)`, i.e. SQL `= NULL`, which is
UNKNOWN for every row under three-valued logic. -/
def listTemplatesHandler (ctx : Ctx) (st : Store) :
    Store × Except Err (List CaptionTemplate × Nat) :=
  match requireUser ctx with
  | .error e => (st, .error e)
  | .ok user =>
    let items := st.templates.filter
      (fun t => sqlPass (sqlOr (sqlEq t.userId (some user.id)) (sqlEq t.userId none)))
    (st, .ok (items, items.length))

/-- `listTemplates` action (input `z.object({}).optional()` — nothing to
validate). -/
def listTemplates (ctx : Ctx) (st : Store) :
    Store × Except Err (List CaptionTemplate × Nat) :=
  listTemplatesHandler ctx st

instance {ε α : Type} [DecidableEq ε] [DecidableEq α] :
    DecidableEq (Except ε α) := fun a b =>
  match a, b with
  | .ok x, .ok y =>
    if h : x = y then isTrue (by rw [h]) else isFalse (by simp [h])
  | .error x, .error y =>
    if h : x = y then isTrue (by rw [h]) else isFalse (by simp [h])
  | .ok _, .error _ => isFalse (by simp)
  | .error _, .ok _ => isFalse (by simp)

/-- An UPDATE whose WHERE clause hits a unique key: on a list with pairwise
distinct keys, mapping the patch over the matching rows and then selecting
the first row with that key yields the patched image of the unique matching
row. -/
theorem find_map_update {α : Type} (key : α → String) (f : α → α)
    (hkey : ∀ x, key (f x) = key x) (k : String) :
    ∀ l : List α, l.Pairwise (fun a b => key a ≠ key b) →
      ∀ a, a ∈ l → key a = k →
      (l.map (fun x => if key x == k then f x else x)).find?
          (fun x => key x == k) = some (f a)
  | [], _, a, ha, _ => absurd ha (List.not_mem_nil a)
  | b :: l, hp, a, ha, hk => by
    obtain ⟨hb, hl⟩ := List.pairwise_cons.mp hp
    rcases List.mem_cons.mp ha with rfl | hal
    · have hbk : (key a == k) = true := by simpa using hk
      simp only [List.map_cons, hbk, if_true]
      rw [List.find?_cons_of_pos]
      simpa using (hk ▸ hkey a)
    · have hbk : (key b == k) = false := by
        have hne : key b ≠ key a := hb a hal
        rw [hk] at hne
        simpa using hne
      simp only [List.map_cons, hbk, if_false]
      rw [List.find?_cons_of_neg _ (by simp [hbk])]
      exact find_map_update key f hkey k l hl a hal hk

/-- Rows whose key misses the WHERE clause of an UPDATE survive it
unchanged. -/
theorem mem_map_update_of_ne {α : Type} (key : α → String) (f : α → α)
    (k : String) (l : List α) (x : α) (hx : x ∈ l) (hne : key x ≠ k) :
    x ∈ l.map (fun y => if key y == k then f y else y) := by
  have h : (if key x == k then f x else x) ∈
      l.map (fun y => if key y == k then f y else y) :=
    List.mem_map_of_mem _ hx
  rwa [if_neg (by simpa using hne)] at h

/-- Example row: a session owned by user u1. -/
def sessA : CaptionSession := ⟨"s1", "u1", "Launch promo", none, none, none, 0, 0⟩

/-- Example row: a second session owned by user u1. -/
def sessB : CaptionSession := ⟨"s2", "u1", "Second", none, none, none, 0, 0⟩

/-- Example row: a session owned by user u2. -/
def sessOther : CaptionSession := ⟨"s9", "u2", "Other", none, none, none, 0, 0⟩

/-- Example row: a caption in session s1. -/
def capA : Caption := ⟨"c1", "s1", none, none, none, "New drop!", none, 1⟩

/-- Example row: a global template (NULL owner). -/
def tmplGlobal : CaptionTemplate := ⟨"tg", none, "Welcome", none, none, "Hello", true, 0⟩

/-- Example row: a template owned by user u1. -/
def tmplMine : CaptionTemplate := ⟨"tm", some "u1", "Mine", none, none, "B", false, 0⟩

/-- Example row: a private template owned by user u2. -/
def tmplOther : CaptionTemplate := ⟨"tp", some "u2", "Private", none, none, "P", false, 0⟩

/-- Example row: a template whose owner column holds the empty string. -/
def tmplEmpty : CaptionTemplate := ⟨"te", some "", "Empty", none, none, "E", false, 0⟩

/-- C9: with no authenticated user in the request context, every handler of
the operation surface fails with Unauthorized and leaves the store
untouched (the identity check is the first thing each handler runs). -/
theorem handlers_require_user (st : Store) (now : Nat) (freshId : String)
    (i1 : CreateSessionInput) (i2 : UpdateSessionInput) (i3 : CreateCaptionInput)
    (i4 : UpdateCaptionInput) (i5 : DeleteCaptionInput) (i6 : ListCaptionsInput)
    (i7 : CreateTemplateInput) :
    createCaptionSessionHandler ⟨none⟩ i1 st now freshId = (st, .error .unauthorized) ∧
    updateCaptionSessionHandler ⟨none⟩ i2 st now = (st, .error .unauthorized) ∧
    listCaptionSessionsHandler ⟨none⟩ st = (st, .error .unauthorized) ∧
    createCaptionHandler ⟨none⟩ i3 st now freshId = (st, .error .unauthorized) ∧
    updateCaptionHandler ⟨none⟩ i4 st = (st, .error .unauthorized) ∧
    deleteCaptionHandler ⟨none⟩ i5 st = (st, .error .unauthorized) ∧
    listCaptionsHandler ⟨none⟩ i6 st = (st, .error .unauthorized) ∧
    createTemplateHandler ⟨none⟩ i7 st now freshId = (st, .error .unauthorized) ∧
    listTemplatesHandler ⟨none⟩ st = (st, .error .unauthorized) :=
  ⟨rfl, rfl, rfl, rfl, rfl, rfl, rfl, rfl, rfl⟩

/-- C2: when no session row matches both the id and the acting user's id,
getOwnedSession fails with NotFound; consequently an existing session owned
by another user is observationally identical to a nonexistent session id —
existence of another user's session is never revealed. -/
theorem getOwnedSession_not_found_hides_existence (st : Store)
    (sid sid2 uid : String)
    (h : ∀ s ∈ st.sessions, ¬(s.id = sid ∧ s.userId = uid))
    (h2 : ∀ s ∈ st.sessions, ¬(s.id = sid2 ∧ s.userId = uid)) :
    getOwnedSession st sid uid = .error .notFound ∧
    getOwnedSession st sid uid = getOwnedSession st sid2 uid := by
  have e1 : st.sessions.find? (fun s => s.id == sid && s.userId == uid) = none :=
    List.find?_eq_none.mpr (fun s hs hc => h s hs (by simpa using hc))
  have e2 : st.sessions.find? (fun s => s.id == sid2 && s.userId == uid) = none :=
    List.find?_eq_none.mpr (fun s hs hc => h2 s hs (by simpa using hc))
  constructor
  · simp [getOwnedSession, e1]
  · simp [getOwnedSession, e1, e2]

/-- C2 witness: user u1 asking for u2's existing session s9 gets the same
NotFound as asking for the nonexistent id zz. -/
theorem getOwnedSession_not_found_hides_existence_witness :
    getOwnedSession ⟨[sessOther], [], []⟩ "s9" "u1" = .error .notFound ∧
    getOwnedSession ⟨[sessOther], [], []⟩ "s9" "u1" =
      getOwnedSession ⟨[sessOther], [], []⟩ "zz" "u1" :=
  getOwnedSession_not_found_hides_existence ⟨[sessOther], [], []⟩ "s9" "zz" "u1"
    (by decide) (by decide)

/-- C10: a template whose stored userId is the present-but-empty string is
treated by the guard's truthiness test like a global ownerless template:
the ownership check is skipped and any acting user gets the template. -/
theorem ensureTemplateAccessible_empty_owner_is_global (st : Store)
    (tid uid : String) (t : CaptionTemplate)
    (hfind : st.templates.find? (fun x => x.id == tid) = some t)
    (hempty : t.userId = some "") :
    ensureTemplateAccessible st tid uid = .ok t := by
  simp [ensureTemplateAccessible, hfind, truthy, hempty]

/-- C10 witness: the empty-owner template is returned to user u1. -/
theorem ensureTemplateAccessible_empty_owner_is_global_witness :
    ensureTemplateAccessible ⟨[], [], [tmplEmpty]⟩ "te" "u1" = .ok tmplEmpty :=
  ensureTemplateAccessible_empty_owner_is_global ⟨[], [], [tmplEmpty]⟩ "te" "u1"
    tmplEmpty (by decide) (by decide)

/-- C3 counterexample: the store's only template has the present owner ""
(different from acting user u1), so the claim as stated demands Forbidden,
but the guard returns the template because the truthiness test treats the
empty string as no owner. -/
theorem ensureTemplateAccessible_forbidden_claim_false :
    (⟨[], [], [tmplEmpty]⟩ : Store).templates.find? (fun x => x.id == "te") =
      some tmplEmpty ∧
    tmplEmpty.userId.isSome = true ∧
    tmplEmpty.userId ≠ some "u1" ∧
    ensureTemplateAccessible ⟨[], [], [tmplEmpty]⟩ "te" "u1" ≠ .error .forbidden := by
  decide

/-- C3 (amended): ensureTemplateAccessible fails with NotFound when no
template with the id exists; when the found template has a non-empty owner
different from the acting user it fails with Forbidden; otherwise (owner
absent, empty, or equal to the acting user) it returns the template. -/
theorem ensureTemplateAccessible_cases (st : Store) (tid uid : String) :
    (st.templates.find? (fun x => x.id == tid) = none →
      ensureTemplateAccessible st tid uid = .error .notFound) ∧
    (∀ t, st.templates.find? (fun x => x.id == tid) = some t →
      ((∀ o, t.userId = some o → o ≠ "" → o ≠ uid →
          ensureTemplateAccessible st tid uid = .error .forbidden) ∧
       ((t.userId = none ∨ t.userId = some "" ∨ t.userId = some uid) →
          ensureTemplateAccessible st tid uid = .ok t))) := by
  refine ⟨fun h => by simp [ensureTemplateAccessible, h], fun t ht => ⟨?_, ?_⟩⟩
  · intro o ho hne hnu
    have h1 : (o == "") = false := by simpa using hne
    have h2 : (o == uid) = false := by simpa using hnu
    simp [ensureTemplateAccessible, ht, truthy, ho, h1, h2]
  · rintro (h | h | h) <;> simp [ensureTemplateAccessible, ht, truthy, h]

/-- C3 witness: the three branches of the amended guard at concrete
stores. -/
theorem ensureTemplateAccessible_cases_witness :
    ensureTemplateAccessible ⟨[], [], []⟩ "t0" "u1" = .error .notFound ∧
    ensureTemplateAccessible ⟨[], [], [tmplOther]⟩ "tp" "u1" = .error .forbidden ∧
    ensureTemplateAccessible ⟨[], [], [tmplGlobal]⟩ "tg" "u1" = .ok tmplGlobal :=
  ⟨(ensureTemplateAccessible_cases ⟨[], [], []⟩ "t0" "u1").1 (by decide),
   ((ensureTemplateAccessible_cases ⟨[], [], [tmplOther]⟩ "tp" "u1").2 tmplOther
      (by decide)).1 "u2" (by decide) (by decide) (by decide),
   ((ensureTemplateAccessible_cases ⟨[], [], [tmplGlobal]⟩ "tg" "u1").2 tmplGlobal
      (by decide)).2 (Or.inl (by decide))⟩

/-- C1: the listTemplates WHERE clause compares userId against NULL with
SQL equality (`eq(CaptionTemplates.userId, null)`), which is UNKNOWN for
every row, so a global NULL-owner template is never returned: under user u1
a store with one global and one owned template yields only the owned one
and total 1, although the global template is present. -/
theorem listTemplates_omits_global_templates :
    listTemplates ⟨some ⟨"u1"⟩⟩ ⟨[], [], [tmplGlobal, tmplMine]⟩ =
      (⟨[], [], [tmplGlobal, tmplMine]⟩, .ok ([tmplMine], 1)) ∧
    tmplGlobal ∈ (⟨[], [], [tmplGlobal, tmplMine]⟩ : Store).templates ∧
    tmplGlobal.userId = none := by
  decide

/-- C5: an update request with zero updatable fields is rejected as invalid
input by the zod refinement before the handler runs — the store is
untouched — for both updateCaptionSession and updateCaption. -/
theorem update_with_zero_fields_rejected (ctx : Ctx) (st : Store) (now : Nat)
    (i : UpdateSessionInput) (j : UpdateCaptionInput)
    (hi : i.name = none ∧ i.description = none ∧ i.coreMessage = none ∧
      i.targetAudience = none)
    (hj : j.platform = none ∧ j.tone = none ∧ j.variantLabel = none ∧
      j.captionText = none ∧ j.hashtags = none) :
    updateCaptionSession ctx i st now = (st, .error .invalidInput) ∧
    updateCaption ctx j st = (st, .error .invalidInput) := by
  obtain ⟨h1, h2, h3, h4⟩ := hi
  obtain ⟨g1, g2, g3, g4, g5⟩ := hj
  constructor
  · simp [updateCaptionSession, validUpdateSessionInput, h1, h2, h3, h4]
  · simp [updateCaption, validUpdateCaptionInput, g1, g2, g3, g4, g5]

/-- C5 witness: field-less update requests against a live store are
rejected with invalid input and the store survives unchanged. -/
theorem update_with_zero_fields_rejected_witness :
    updateCaptionSession ⟨some ⟨"u1"⟩⟩ ⟨"s1", none, none, none, none⟩
        ⟨[sessA], [capA], []⟩ 5 =
      (⟨[sessA], [capA], []⟩, .error .invalidInput) ∧
    updateCaption ⟨some ⟨"u1"⟩⟩ ⟨"c1", "s1", none, none, none, none, none⟩
        ⟨[sessA], [capA], []⟩ =
      (⟨[sessA], [capA], []⟩, .error .invalidInput) :=
  update_with_zero_fields_rejected ⟨some ⟨"u1"⟩⟩ ⟨[sessA], [capA], []⟩ 5
    ⟨"s1", none, none, none, none⟩ ⟨"c1", "s1", none, none, none, none, none⟩
    ⟨rfl, rfl, rfl, rfl⟩ ⟨rfl, rfl, rfl, rfl, rfl⟩

/-- C7: createTemplate persists isSystem = false and userId = the acting
user's id for every input — the zod schema has no isSystem key, so no
supplied value can reach the handler, and the handler writes the literal
false. -/
theorem createTemplate_attribution (u : User) (i : CreateTemplateInput)
    (st : Store) (now : Nat) (freshId : String)
    (hv : validCreateTemplateInput i = true) :
    ∃ row, createTemplate ⟨some u⟩ i st now freshId =
        (⟨st.sessions, st.captions, st.templates ++ [row]⟩, .ok row) ∧
      row.isSystem = false ∧ row.userId = some u.id := by
  refine ⟨⟨freshId, some u.id, i.name, i.platform, i.tone, i.body, false, now⟩,
    ?_, rfl, rfl⟩
  simp [createTemplate, hv, createTemplateHandler, requireUser]

/-- C7 witness: a concrete createTemplate call persists isSystem = false
and the caller's id. -/
theorem createTemplate_attribution_witness :
    ∃ row, createTemplate ⟨some ⟨"u1"⟩⟩ ⟨"n", none, none, "b"⟩ ⟨[], [], []⟩ 3 "t5" =
        (⟨[], [], ([] : List CaptionTemplate) ++ [row]⟩, .ok row) ∧
      row.isSystem = false ∧ row.userId = some "u1" :=
  createTemplate_attribution ⟨"u1"⟩ ⟨"n", none, none, "b"⟩ ⟨[], [], []⟩ 3 "t5"
    (by decide)

/-- C8: a successful updateCaptionSession changes only the supplied fields
of the target session: id, userId, createdAt and every unsupplied field
keep their previous values, updatedAt is refreshed to now, the updated row
is returned, and every other session survives untouched. -/
theorem updateCaptionSession_partial_update (u : User) (i : UpdateSessionInput)
    (st : Store) (now : Nat) (s : CaptionSession)
    (hv : validUpdateSessionInput i = true)
    (hmem : s ∈ st.sessions) (hsid : s.id = i.id) (hown : s.userId = u.id)
    (huniq : st.sessions.Pairwise (fun a b => a.id ≠ b.id)) :
    updateCaptionSession ⟨some u⟩ i st now =
      (⟨st.sessions.map (fun x => if x.id == i.id then applySessionSet i now x else x),
        st.captions, st.templates⟩, .ok (some (applySessionSet i now s))) ∧
    (applySessionSet i now s).id = s.id ∧
    (applySessionSet i now s).userId = s.userId ∧
    (applySessionSet i now s).createdAt = s.createdAt ∧
    (applySessionSet i now s).updatedAt = now ∧
    (∀ v, i.name = some v → (applySessionSet i now s).name = v) ∧
    (i.name = none → (applySessionSet i now s).name = s.name) ∧
    (∀ v, i.description = some v → (applySessionSet i now s).description = some v) ∧
    (i.description = none → (applySessionSet i now s).description = s.description) ∧
    (∀ v, i.coreMessage = some v → (applySessionSet i now s).coreMessage = some v) ∧
    (i.coreMessage = none → (applySessionSet i now s).coreMessage = s.coreMessage) ∧
    (∀ v, i.targetAudience = some v →
      (applySessionSet i now s).targetAudience = some v) ∧
    (i.targetAudience = none →
      (applySessionSet i now s).targetAudience = s.targetAudience) ∧
    (∀ x ∈ st.sessions, x.id ≠ i.id →
      x ∈ st.sessions.map (fun y => if y.id == i.id then applySessionSet i now y else y)) := by
  have hsome : (st.sessions.find? (fun x => x.id == i.id && x.userId == u.id)).isSome :=
    List.find?_isSome.mpr ⟨s, hmem, by simp [hsid, hown]⟩
  obtain ⟨s0, hs0⟩ := Option.isSome_iff_exists.mp hsome
  have hguard : getOwnedSession st i.id u.id = .ok s0 := by
    simp [getOwnedSession, hs0]
  have hfind := find_map_update (fun x : CaptionSession => x.id)
    (applySessionSet i now) (fun _ => rfl) i.id st.sessions huniq s hmem hsid
  refine ⟨?_, rfl, rfl, rfl, rfl,
    fun v hv2 => by simp [applySessionSet, hv2],
    fun hv2 => by simp [applySessionSet, hv2],
    fun v hv2 => by simp [applySessionSet, hv2],
    fun hv2 => by simp [applySessionSet, hv2],
    fun v hv2 => by simp [applySessionSet, hv2],
    fun hv2 => by simp [applySessionSet, hv2],
    fun v hv2 => by simp [applySessionSet, hv2],
    fun hv2 => by simp [applySessionSet, hv2],
    fun x hx hne => mem_map_update_of_ne (fun y => y.id) (applySessionSet i now)
      i.id st.sessions x hx hne⟩
  have hfind2 : (st.sessions.map
      (fun x => if x.id == i.id then applySessionSet i now x else x)).find?
      (fun x => x.id == i.id) = some (applySessionSet i now s) := hfind
  have hw : updateCaptionSession ⟨some u⟩ i st now =
      updateCaptionSessionHandler ⟨some u⟩ i st now := by
    simp [updateCaptionSession, hv]
  rw [hw]
  simp only [updateCaptionSessionHandler, requireUser, hguard]
  rw [hfind2]

/-- C8 witness: renaming the only stored session refreshes updatedAt and
keeps everything else. -/
theorem updateCaptionSession_partial_update_witness :
    updateCaptionSession ⟨some ⟨"u1"⟩⟩ ⟨"s1", some "Renamed", none, none, none⟩
        ⟨[sessA], [capA], []⟩ 7 =
      (⟨[sessA].map (fun x => if x.id == "s1" then
          applySessionSet ⟨"s1", some "Renamed", none, none, none⟩ 7 x else x),
        [capA], []⟩,
        .ok (some (applySessionSet ⟨"s1", some "Renamed", none, none, none⟩ 7 sessA))) :=
  (updateCaptionSession_partial_update ⟨"u1"⟩ ⟨"s1", some "Renamed", none, none, none⟩
    ⟨[sessA], [capA], []⟩ 7 sessA (by decide) (by decide) (by decide) (by decide)
    (by decide)).1

/-- C4: updating or deleting a caption through a different session of the
same owner fails with NotFound and leaves the caption's row (indeed the
whole store) unchanged: both the update lookup and the delete predicate
require id AND sessionId to match together. -/
theorem caption_cross_session_not_found (u : User) (st : Store)
    (c : Caption) (s s2 : CaptionSession)
    (i : UpdateCaptionInput) (j : DeleteCaptionInput)
    (hc : c ∈ st.captions) (hcs : c.sessionId = s.id)
    (hs : s ∈ st.sessions) (hso : s.userId = u.id)
    (hs2 : s2 ∈ st.sessions) (hso2 : s2.userId = u.id)
    (hdiff : s2.id ≠ s.id)
    (huniq : st.captions.Pairwise (fun a b => a.id ≠ b.id))
    (hiv : validUpdateCaptionInput i = true) (hii : i.id = c.id)
    (his : i.sessionId = s2.id)
    (hjv : validDeleteCaptionInput j = true) (hji : j.id = c.id)
    (hjs : j.sessionId = s2.id) :
    updateCaption ⟨some u⟩ i st = (st, .error .notFound) ∧
    deleteCaption ⟨some u⟩ j st = (st, .error .notFound) ∧
    c ∈ (updateCaption ⟨some u⟩ i st).1.captions ∧
    c ∈ (deleteCaption ⟨some u⟩ j st).1.captions := by
  have hnomatch : ∀ x ∈ st.captions,
      ¬((x.id == c.id && x.sessionId == s2.id) = true) := by
    intro x hx hcon
    rw [Bool.and_eq_true, beq_iff_eq, beq_iff_eq] at hcon
    obtain ⟨hxid, hxs⟩ := hcon
    by_cases hxc : x = c
    · subst hxc
      exact hdiff (by rw [← hxs]; exact hcs)
    · exact List.Pairwise.forall (fun a b hab => hab.symm) huniq hx hc hxc hxid
  have hsome : (st.sessions.find? (fun x => x.id == s2.id && x.userId == u.id)).isSome :=
    List.find?_isSome.mpr ⟨s2, hs2, by simp [hso2]⟩
  obtain ⟨s0, hs0⟩ := Option.isSome_iff_exists.mp hsome
  have hguardU : getOwnedSession st i.sessionId u.id = .ok s0 := by
    rw [his]; simp [getOwnedSession, hs0]
  have hguardD : getOwnedSession st j.sessionId u.id = .ok s0 := by
    rw [hjs]; simp [getOwnedSession, hs0]
  have hfindU : st.captions.find?
      (fun x => x.id == i.id && x.sessionId == i.sessionId) = none := by
    apply List.find?_eq_none.mpr
    intro x hx
    rw [hii, his]
    exact hnomatch x hx
  have hupd : updateCaption ⟨some u⟩ i st = (st, .error .notFound) := by
    simp [updateCaption, hiv, updateCaptionHandler, requireUser, hguardU, hfindU]
  have hallD : ∀ x ∈ st.captions,
      (!(x.id == j.id && x.sessionId == j.sessionId)) = true := by
    intro x hx
    rw [hji, hjs]
    cases hb : (x.id == c.id && x.sessionId == s2.id) with
    | true => exact absurd hb (hnomatch x hx)
    | false => rfl
  have hfilter : st.captions.filter
      (fun x => !(x.id == j.id && x.sessionId == j.sessionId)) = st.captions :=
    List.filter_eq_self.mpr hallD
  have hcount : st.captions.countP
      (fun x => x.id == j.id && x.sessionId == j.sessionId) = 0 :=
    List.countP_eq_zero.mpr (fun x hx => by rw [hji, hjs]; exact hnomatch x hx)
  have hwD : deleteCaption ⟨some u⟩ j st = deleteCaptionHandler ⟨some u⟩ j st := by
    simp [deleteCaption, hjv]
  have hdel : deleteCaption ⟨some u⟩ j st = (st, .error .notFound) := by
    rw [hwD]
    simp only [deleteCaptionHandler, requireUser, hguardD]
    rw [hcount, hfilter]
    rfl
  exact ⟨hupd, hdel, by rw [hupd]; exact hc, by rw [hdel]; exact hc⟩

/-- C4 witness: caption c1 lives in session s1; addressing it through the
sibling session s2 of the same owner yields NotFound twice and the caption
row survives. -/
theorem caption_cross_session_not_found_witness :
    updateCaption ⟨some ⟨"u1"⟩⟩ ⟨"c1", "s2", some "x", none, none, none, none⟩
        ⟨[sessA, sessB], [capA], []⟩ =
      (⟨[sessA, sessB], [capA], []⟩, .error .notFound) ∧
    deleteCaption ⟨some ⟨"u1"⟩⟩ ⟨"c1", "s2"⟩ ⟨[sessA, sessB], [capA], []⟩ =
      (⟨[sessA, sessB], [capA], []⟩, .error .notFound) ∧
    capA ∈ (updateCaption ⟨some ⟨"u1"⟩⟩ ⟨"c1", "s2", some "x", none, none, none, none⟩
        ⟨[sessA, sessB], [capA], []⟩).1.captions ∧
    capA ∈ (deleteCaption ⟨some ⟨"u1"⟩⟩ ⟨"c1", "s2"⟩
        ⟨[sessA, sessB], [capA], []⟩).1.captions :=
  caption_cross_session_not_found ⟨"u1"⟩ ⟨[sessA, sessB], [capA], []⟩ capA sessA sessB
    ⟨"c1", "s2", some "x", none, none, none, none⟩ ⟨"c1", "s2"⟩
    (by decide) (by decide) (by decide) (by decide) (by decide) (by decide)
    (by decide) (by decide) (by decide) (by decide) (by decide) (by decide)
    (by decide) (by decide)

/-- C6 counterexample: zod lets templateId be the empty string and the
handler's truthiness test then skips the template gate entirely: with no
template in the store the claim as stated demands NotFound, yet the call
succeeds and inserts the caption. -/
theorem createCaption_empty_templateId_skips_gate :
    (⟨"s1", none, none, none, "Hi", none, some ""⟩ : CreateCaptionInput).templateId =
      some "" ∧
    (⟨[sessA], [], []⟩ : Store).templates.find? (fun t => t.id == "") = none ∧
    createCaption ⟨some ⟨"u1"⟩⟩ ⟨"s1", none, none, none, "Hi", none, some ""⟩
        ⟨[sessA], [], []⟩ 3 "c7" =
      (⟨[sessA], [⟨"c7", "s1", none, none, none, "Hi", none, 3⟩], []⟩,
        .ok ⟨"c7", "s1", none, none, none, "Hi", none, 3⟩) := by
  decide

/-- C6 (amended): when a non-empty templateId is supplied, createCaption
resolves and access-checks the template before inserting anything —
NotFound if absent, Forbidden when the template's owner is non-empty and
differs from the acting user — and on success the inserted caption's
captionText equals the input's captionText exactly (the template body is
never merged); an empty-string templateId is treated as absent by the
handler's truthiness test. -/
theorem createCaption_template_gate (u : User) (i : CreateCaptionInput)
    (st : Store) (now : Nat) (freshId : String) (s : CaptionSession) (tid : String)
    (hv : validCreateCaptionInput i = true)
    (hsess : getOwnedSession st i.sessionId u.id = .ok s)
    (htid : i.templateId = some tid) (hne : tid ≠ "") :
    (st.templates.find? (fun t => t.id == tid) = none →
      createCaption ⟨some u⟩ i st now freshId = (st, .error .notFound)) ∧
    (∀ t o, st.templates.find? (fun t2 => t2.id == tid) = some t →
      t.userId = some o → o ≠ "" → o ≠ u.id →
      createCaption ⟨some u⟩ i st now freshId = (st, .error .forbidden)) ∧
    (∀ st2 c, createCaption ⟨some u⟩ i st now freshId = (st2, .ok c) →
      c.captionText = i.captionText ∧ st2.captions = st.captions ++ [c] ∧
      st2.sessions = st.sessions ∧ st2.templates = st.templates) := by
  have htr : truthy i.templateId = true := by simp [truthy, htid, hne]
  have hgetD : i.templateId.getD "" = tid := by simp [htid]
  refine ⟨?_, ?_, ?_⟩
  · intro hnone
    have hacc : ensureTemplateAccessible st tid u.id = .error .notFound := by
      simp [ensureTemplateAccessible, hnone]
    simp [createCaption, hv, createCaptionHandler, requireUser, hsess, htr,
      hgetD, hacc]
  · intro t o ht ho hone honu
    have h1 : (o == "") = false := by simpa using hone
    have h2 : (o == u.id) = false := by simpa using honu
    have hacc : ensureTemplateAccessible st tid u.id = .error .forbidden := by
      simp [ensureTemplateAccessible, ht, truthy, ho, h1, h2]
    simp [createCaption, hv, createCaptionHandler, requireUser, hsess, htr,
      hgetD, hacc]
  · intro st2 c hEq
    cases hacc : ensureTemplateAccessible st tid u.id with
    | error e =>
      have hres : createCaption ⟨some u⟩ i st now freshId = (st, .error e) := by
        simp [createCaption, hv, createCaptionHandler, requireUser, hsess, htr,
          hgetD, hacc]
      rw [hres] at hEq
      exact absurd (congrArg Prod.snd hEq) (by simp)
    | ok t =>
      have hres : createCaption ⟨some u⟩ i st now freshId =
          (⟨st.sessions, st.captions ++
              [⟨freshId, i.sessionId, i.platform, i.tone, i.variantLabel,
                i.captionText, i.hashtags, now⟩], st.templates⟩,
            .ok ⟨freshId, i.sessionId, i.platform, i.tone, i.variantLabel,
              i.captionText, i.hashtags, now⟩) := by
        simp [createCaption, hv, createCaptionHandler, requireUser, hsess, htr,
          hgetD, hacc]
      rw [hres] at hEq
      injection hEq with hA hB
      injection hB with hB
      subst hA
      subst hB
      exact ⟨rfl, rfl, rfl, rfl⟩

/-- C6 witness: under the amended gate, an absent template id yields
NotFound and another user's private template yields Forbidden, with the
store untouched. -/
theorem createCaption_template_gate_witness :
    createCaption ⟨some ⟨"u1"⟩⟩ ⟨"s1", none, none, none, "Hi", none, some "zz"⟩
        ⟨[sessA], [], [tmplOther]⟩ 3 "c7" =
      (⟨[sessA], [], [tmplOther]⟩, .error .notFound) ∧
    createCaption ⟨some ⟨"u1"⟩⟩ ⟨"s1", none, none, none, "Hi", none, some "tp"⟩
        ⟨[sessA], [], [tmplOther]⟩ 3 "c7" =
      (⟨[sessA], [], [tmplOther]⟩, .error .forbidden) :=
  ⟨(createCaption_template_gate ⟨"u1"⟩ ⟨"s1", none, none, none, "Hi", none, some "zz"⟩
      ⟨[sessA], [], [tmplOther]⟩ 3 "c7" sessA "zz" (by decide) (by decide)
      (by decide) (by decide)).1 (by decide),
   ((createCaption_template_gate ⟨"u1"⟩ ⟨"s1", none, none, none, "Hi", none, some "tp"⟩
      ⟨[sessA], [], [tmplOther]⟩ 3 "c7" sessA "tp" (by decide) (by decide)
      (by decide) (by decide)).2.1 tmplOther "u2" (by decide) (by decide)
      (by decide) (by decide))⟩

end SocialCaption
